import Mathlib

/-!
Verification of the fastllm local development synchronization engine.

This file shallowly embeds the code of
`promptmodel/websocket/reload_handler.py` (changelog reconciler, reload
pipeline) and `promptmodel/websocket/websocket_client.py` (run executor,
sync channel reconnect loop) and proves or refutes the frozen claims
about it.

Conventions of the embedding:
* Python dict rows become Lean structures holding only the fields the
  claims depend on.
* The peewee tables become lists of rows inside a `LocalDB` state record;
  `Table.update(...).where(...)` becomes a `List.map`, `Table.create` /
  `insert_many` become list appends, `Table.get` becomes `List.find?`.
* Python exceptions become `Except String`; an uncaught exception is an
  `.error`.
* Python `x in xs` membership tests become `decide (x ∈ xs)`.
* reload_handler.py reads the local tables through
  `[model_to_dict(x, recurse=False) for x in [Table.select()]]`: the
  iterable is the one-element list literal holding the `ModelSelect`
  query object, so `model_to_dict` receives the query instead of a row
  and raises `AttributeError` at every such site. The embedding models
  each of these sites as raising, with the store state at raise time
  carried alongside the exception (peewee writes persist).
-/

namespace Fastllm

instance {ε α : Type} [DecidableEq ε] [DecidableEq α] : DecidableEq (Except ε α) :=
  fun x y =>
    match x, y with
    | .ok a, .ok b => decidable_of_iff (a = b) (by simp)
    | .error a, .error b => decidable_of_iff (a = b) (by simp)
    | .ok _, .error _ => isFalse (by simp)
    | .error _, .ok _ => isFalse (by simp)

/-- A row of the `PromptModel` table (also used for `ChatModel`, whose
relevant columns are identical): `{uuid, name, used_in_code, is_deployed}`. -/
structure PMModule where
  uuid : String
  name : String
  used_in_code : Bool
  is_deployed : Bool
deriving Repr, DecidableEq

/-- A row of the `PromptModelVersion` table: the columns the reconciler
touches are `uuid`, `prompt_model_uuid` (foreign key) and `status`. -/
structure PMVersion where
  uuid : String
  prompt_model_uuid : String
  status : String
deriving Repr, DecidableEq

/-- A row of the `ChatModelVersion` table. -/
structure CMVersion where
  uuid : String
  chat_model_uuid : String
  status : String
deriving Repr, DecidableEq

/-- A `Prompt` row as replayed from the remote snapshot: the reconciler
only filters on `version_uuid`. -/
structure SnapPrompt where
  version_uuid : String
deriving Repr, DecidableEq

/-- A `RunLog` row as replayed from the remote snapshot. -/
structure SnapRunLog where
  version_uuid : String
deriving Repr, DecidableEq

/-- The local persistent store: the peewee tables the cited code reads and
writes, each as a list of rows. -/
structure LocalDB where
  prompt_models : List PMModule
  versions : List PMVersion
  prompts : List SnapPrompt
  run_logs : List SnapRunLog
  chat_models : List PMModule
  chat_versions : List CMVersion
deriving Repr, DecidableEq

/-- A module record of the remote project snapshot (`project_status`):
`{uuid, name}` are the fields the reconciler reads. -/
structure RemoteModule where
  uuid : String
  name : String
deriving Repr, DecidableEq

/-- The remote project snapshot fetched from `/pull_project`. -/
structure ProjectStatus where
  prompt_models : List RemoteModule
  prompt_model_versions : List PMVersion
  prompts : List SnapPrompt
  run_logs : List SnapRunLog
  chat_models : List RemoteModule
  chat_model_versions : List CMVersion
deriving Repr, DecidableEq

/-- One element of a changelog's `logs` list:
`{subject, action, identifiers}`. -/
structure LogEntry where
  subject : String
  action : String
  identifiers : List String
deriving Repr, DecidableEq

/-- One changelog record: `{level, logs, previous_version}`. -/
structure ChangelogEntry where
  level : Int
  logs : List LogEntry
  previous_version : String
deriving Repr, DecidableEq

/-- Modelled from the spec: `update_prompt_model_uuid` lives in
`promptmodel/database/crud.py`, which is not among the provided sources.
The spec describes it as the Local Store Adapter's identifier-remap
operation: rewrite the identifier of the module row and all foreign keys
referencing the given local identifier to the new identifier
(local-to-remote UUID remap). -/
def update_prompt_model_uuid (db : LocalDB) (local_uuid new_uuid : String) : LocalDB :=
  { db with
    prompt_models := db.prompt_models.map (fun r =>
      if r.uuid = local_uuid then { r with uuid := new_uuid } else r),
    versions := db.versions.map (fun v =>
      if v.prompt_model_uuid = local_uuid then
        { v with prompt_model_uuid := new_uuid } else v) }

/-- The exception raised by every
`[model_to_dict(x, recurse=False) for x in [Table.select()]]`
comprehension in reload_handler.py (lines 136-138, 149-151, 173-178,
311-313, 330-340, 411-413, 429-437): the iterable is the one-element
list literal holding the `ModelSelect` query object, so `model_to_dict`
receives the query instead of a row and raises `AttributeError`. -/
def attributeErrorMsg : String :=
  "AttributeError: ModelSelect object has no attribute _meta"

/-- The `for prompt_model in prompt_model_list` loop body of
`update_prompt_model_changelog` (reload_handler.py lines 286-313),
returning the store after the call together with the normal result or
the exception (peewee writes persist even when a later statement
raises). The create branch (lines 291-301) completes; the collision
branch performs `update_prompt_model_uuid` (line 309) and then raises
`AttributeError` at the lines 311-313 local-list refresh, which calls
`model_to_dict` on the `ModelSelect` query object, so the loop never
continues past a collision. `PromptModel.get` (line 305, which does
yield a real model instance) raising `DoesNotExist` also becomes
`.error`. -/
def apply_remote_modules (code_names : List String) :
    List RemoteModule → LocalDB → List PMModule →
    LocalDB × Except String (List PMModule)
  | [], db, l => (db, .ok l)
  | pm :: rest, db, l =>
    if ¬ pm.name ∈ l.map (·.name) then
      let new_row : PMModule :=
        { uuid := pm.uuid, name := pm.name,
          used_in_code := decide (pm.name ∈ code_names), is_deployed := true }
      apply_remote_modules code_names rest
        { db with prompt_models := db.prompt_models ++ [new_row] } l
    else
      match db.prompt_models.find? (fun r => decide (r.name = pm.name)) with
      | none => (db, .error "DoesNotExist")
      | some row =>
        (update_prompt_model_uuid db row.uuid pm.uuid, .error attributeErrorMsg)

/-- `update_prompt_model_changelog` (reload_handler.py lines 275-318).
`local_db_prompt_model_list` can be `None` because the version-subject
function returns `None` on non-ADD actions; iterating `None` raises
`TypeError` once the loop body actually runs (i.e. when the filtered
snapshot module list is non-empty). An exception inside the loop
propagates together with the store mutations made before it. -/
def update_prompt_model_changelog (action : String) (ps : ProjectStatus)
    (uuid_list : List String) (local_list : Option (List PMModule))
    (code_names : List String) (db : LocalDB) :
    LocalDB × Except String (Option (List PMModule)) :=
  if action = "ADD" then
    let pm_list := ps.prompt_models.filter (fun x => decide (x.uuid ∈ uuid_list))
    match pm_list, local_list with
    | [], _ => (db, .ok local_list)
    | _ :: _, none => (db, .error "TypeError: NoneType object is not iterable")
    | _ :: _, some l =>
      match apply_remote_modules code_names pm_list db l with
      | (db2, .ok l2) => (db2, .ok (some l2))
      | (db2, .error e) => (db2, .error e)
  else
    (db, .ok local_list)

/-- `update_prompt_model_version_changelog` (reload_handler.py lines
321-373). Its collection loop (lines 329-340) evaluates
`[model_to_dict(x, recurse=False) for x in [PromptModelVersion.select() ...]]`
once per local module, so it raises `AttributeError` as soon as the
local module list is non-empty; with an empty list the collection stays
empty and the identifier-presence filter (lines 341-347) is fed no local
rows, keeping every identifier. Iterating `None` raises `TypeError`;
the non-ADD branch falls off the function and returns `None`. -/
def update_prompt_model_version_changelog (action : String) (ps : ProjectStatus)
    (uuid_list : List String) (local_list : Option (List PMModule))
    (_code_names : List String) (db : LocalDB) :
    LocalDB × Except String (Option (List PMModule)) :=
  match local_list with
  | none => (db, .error "TypeError: NoneType object is not iterable")
  | some (_ :: _) => (db, .error attributeErrorMsg)
  | some [] =>
    let uuid_list := uuid_list.filter
      (fun u => decide (¬ u ∈ ([] : List PMVersion).map (·.uuid)))
    if action = "ADD" then
      let version_rows :=
        (ps.prompt_model_versions.filter (fun x => decide (x.uuid ∈ uuid_list))).map
          (fun v => { v with status := "candidate" })
      let prompt_rows :=
        ps.prompts.filter (fun x => decide (x.version_uuid ∈ uuid_list))
      let run_log_rows :=
        ps.run_logs.filter (fun x => decide (x.version_uuid ∈ uuid_list))
      ({ db with
          versions := db.versions ++ version_rows,
          prompts := db.prompts ++ prompt_rows,
          run_logs := db.run_logs ++ run_log_rows }, .ok (some []))
    else
      (db, .ok none)

/-- Python `str.split(".")`: splits on every dot, never returns an empty
list (`"".split(".") == [""]`). -/
def splitDotsAux : List Char → List Char → List String
  | [], acc => [String.mk acc.reverse]
  | c :: rest, acc =>
    if c = '.' then String.mk acc.reverse :: splitDotsAux rest []
    else splitDotsAux rest (c :: acc)

/-- Python `previous_version.split(".")`. -/
def splitDots (s : String) : List String :=
  splitDotsAux s.toList []

/-- Digit-string accumulator for `pyInt`. -/
def digitsToNatAux : List Char → Nat → Option Nat
  | [], acc => some acc
  | c :: rest, acc =>
    if c.isDigit then digitsToNatAux rest (acc * 10 + (c.toNat - 48))
    else none

/-- Python `int(s)` restricted to the shapes the version counter uses:
an optional leading minus sign followed by decimal digits; anything else
raises `ValueError` (here: `none`). -/
def pyInt (s : String) : Option Int :=
  match s.toList with
  | [] => none
  | '-' :: rest =>
    match rest with
    | [] => none
    | _ :: _ => (digitsToNatAux rest 0).map (fun n => -(n : Int))
  | cs => (digitsToNatAux cs 0).map (fun n => (n : Int))

/-- The semantic-version bump computed inline in
`update_by_changelog_for_reload` (reload_handler.py lines 224-269):
level 1 parses component 0 and emits `major+1 .0.0`; level 2 copies
component 0 verbatim, parses component 1 and emits `major.minor+1 .0`;
any other level copies components 0 and 1 and parses component 2.
List indexing out of range raises `IndexError`, a non-numeric component
raises `ValueError`. This arithmetic is unreachable at runtime:
`update_by_changelog_for_reload` raises at its initial store read before
its entry loop runs. -/
def bump_version (level : Int) (previous_version : String) : Except String String :=
  let parts := splitDots previous_version
  if level = 1 then
    match parts.get? 0 with
    | none => .error "IndexError"
    | some p0 =>
      match pyInt p0 with
      | none => .error "ValueError"
      | some n => .ok (toString (n + 1) ++ "." ++ "0" ++ "." ++ "0")
  else if level = 2 then
    match parts.get? 0, parts.get? 1 with
    | some p0, some p1 =>
      (match pyInt p1 with
       | none => .error "ValueError"
       | some n => .ok (p0 ++ "." ++ toString (n + 1) ++ "." ++ "0"))
    | _, _ => .error "IndexError"
  else
    match parts.get? 0, parts.get? 1, parts.get? 2 with
    | some p0, some p1, some p2 =>
      (match pyInt p2 with
       | none => .error "ValueError"
       | some n => .ok (p0 ++ "." ++ p1 ++ "." ++ toString (n + 1)))
    | _, _, _ => .error "IndexError"


/-- `update_by_changelog_for_reload` (reload_handler.py lines 166-272).
Its first statement (lines 173-175) evaluates
`[model_to_dict(x, recurse=False) for x in [PromptModel.select()]]`,
which raises `AttributeError` on every call, so the per-entry loop
(lines 180-272), the version bump and the `upsert_config` persist are
unreachable from this function: no changelog entry is ever applied and
no project version is ever written. -/
def update_by_changelog_for_reload (_changelogs : List ChangelogEntry)
    (_ps : ProjectStatus) (_code_pm _code_cm : List String)
    (db : LocalDB) (_pv : String) : LocalDB × Except String String :=
  (db, .error attributeErrorMsg)

/-- The two `update(used_in_code=False)` statements of `reload_code`
(reload_handler.py lines 84-97): set the flag to false on every row whose
name is in `set(old) - set(new)`. -/
def mark_removed (old_names new_names : List String) (rows : List PMModule) :
    List PMModule :=
  let removed := old_names.filter (fun n => decide (¬ n ∈ new_names))
  rows.map (fun r =>
    if r.name ∈ removed then { r with used_in_code := false } else r)

/-- The two `update(used_in_code=True)` statements of `reload_code`
(reload_handler.py lines 127-133): set the flag to true on every row whose
name is NOT in the old code name list. These statements are unreachable:
the driver call at line 120 raises first. -/
def mark_added (old_names : List String) (rows : List PMModule) : List PMModule :=
  rows.map (fun r =>
    if r.name ∈ old_names then r else { r with used_in_code := true })

/-- The store-mutating pipeline of `CodeReloadHandler.reload_code`
(reload_handler.py lines 84-163): the mark-unused updates (lines 84-97)
run, then the `update_by_changelog_for_reload` call at line 120 raises
`AttributeError`, which propagates out of `reload_code` (killing the
watcher timer thread), so the mark-used updates, the purely-local
inserts and the sample update (lines 127-163) never execute. Were the
driver ever to return, the mark-used updates would run and the
purely-local insert would itself raise at its lines 136-138 store read
(the same broken comprehension). -/
def reload_code (old_pm new_pm old_cm new_cm : List String)
    (changelogs : List ChangelogEntry) (ps : ProjectStatus)
    (db : LocalDB) (pv : String) : LocalDB × Except String String :=
  let db1 := { db with
    prompt_models := mark_removed old_pm new_pm db.prompt_models,
    chat_models := mark_removed old_cm new_cm db.chat_models }
  match update_by_changelog_for_reload changelogs ps new_pm new_cm db1 pv with
  | (db2, .error e) => (db2, .error e)
  | (db2, .ok _pv2) =>
    let db3 := { db2 with
      prompt_models := mark_added old_pm db2.prompt_models,
      chat_models := mark_added old_cm db2.chat_models }
    (db3, .error attributeErrorMsg)

/-- An empty local store, used by concrete instances. -/
def emptyDB : LocalDB := ⟨[], [], [], [], [], []⟩

/-- An empty remote snapshot, used by concrete instances. -/
def emptyPS : ProjectStatus := ⟨[], [], [], [], [], []⟩

/-! ## Run executor (`DevWebsocketClient.__handle_message`, RUN_LLM_MODULE branch) -/

/-- Association-list lookup, modelling Python dict/row lookup by key. -/
def lookupPair {α : Type} (l : List (String × α)) (k : String) : Option α :=
  (l.find? (fun p => decide (p.1 = k))).map (·.2)

/-- Python `template.format(**inputs)` for plain replacement fields:
doubled braces are literals, an unmatched brace raises `ValueError`, a
field naming a key absent from `inputs` raises `KeyError`. The second
argument is `some keyAcc` while scanning a replacement field. -/
def pyFormatAux (inputs : List (String × String)) :
    List Char → Option (List Char) → List Char → Except String String
  | [], none, acc => .ok (String.mk acc.reverse)
  | [], some _, _ => .error "ValueError: expected closing brace"
  | '{' :: '{' :: rest, none, acc => pyFormatAux inputs rest none ('{' :: acc)
  | '}' :: '}' :: rest, none, acc => pyFormatAux inputs rest none ('}' :: acc)
  | '{' :: rest, none, acc => pyFormatAux inputs rest (some []) acc
  | '}' :: _, none, _ => .error "ValueError: single closing brace"
  | c :: rest, none, acc => pyFormatAux inputs rest none (c :: acc)
  | '}' :: rest, some key_acc, acc =>
    (match lookupPair inputs (String.mk key_acc.reverse) with
     | none => .error ("KeyError: " ++ String.mk key_acc.reverse)
     | some v => pyFormatAux inputs rest none (v.toList.reverse ++ acc))
  | c :: rest, some key_acc, acc => pyFormatAux inputs rest (some (c :: key_acc)) acc

/-- Python `prompt['content'].format(**sample_input)`. -/
def pyFormat (template : String) (inputs : List (String × String)) :
    Except String String :=
  pyFormatAux inputs template.toList none []


/-- One chunk yielded by `llm_module_dev.dev_generate`: a raw text delta
(`str` item) or a single parsed-field delta (`dict` item; the handler
reads only the first key of the dict, so one key-value pair per chunk). -/
inductive StreamItem where
  | raw (s : String)
  | parsed (k v : String)
deriving Repr, DecidableEq

/-- The behaviour of one LLM stream: the chunks it yields, and the
exception (if any) it raises after the last yielded chunk. -/
structure StreamSpec where
  items : List StreamItem
  err : Option String
deriving Repr, DecidableEq

/-- One prompt of the run request (`{role, content}`; `step` is not read
by the run path beyond prompt creation). -/
structure PromptMsg where
  role : String
  content : String
deriving Repr, DecidableEq

/-- The RUN_LLM_MODULE task message fields the handler reads. -/
structure RunMsg where
  llm_module_name : String
  sample_name : Option String
  version_uuid : Option String
  prompts : List PromptMsg
  model : String
deriving Repr, DecidableEq

/-- The handler's environment: the sample table rows, the Registry name
list (`self._client.llm_modules`), the module-name-to-uuid map of the
local store (`get_llm_module_uuid`, from `database/crud.py` which is not
among the sources, modelled from the spec as a Local Store Adapter get),
the uuid minted for a newly created version, the LLM stream behaviour,
and the exception (if any) raised by `create_run_log`. -/
structure RunEnv where
  samples : List (String × List (String × String))
  registry_names : List String
  module_uuids : List (String × String)
  new_version_uuid : String
  stream : StreamSpec
  persist_err : Option String
deriving Repr, DecidableEq

/-- One outbound message of the run: the UPDATE_RESULT_RUN events
(running with inputs, running with a raw delta, running with a parsed
delta, completed, failed) plus the raw `ws.send(str(error))` of the outer
per-message exception handler. -/
inductive RunOutEvent where
  | runningStart (version_uuid : String) (inputs : List (String × String))
  | runningRaw (delta : String)
  | runningParsed (k v : String)
  | completed
  | failed (log : String)
  | rawError (text : String)
deriving Repr, DecidableEq

/-- The row written by `create_run_log` (websocket_client.py lines
217-222): version uuid, the (json-serialized, here structural) inputs,
accumulated raw output and accumulated parsed outputs. The call passes no
error field of any kind. -/
structure RunLogRow where
  version_uuid : String
  inputs : Option (List (String × String))
  raw_output : String
  parsed_outputs : List (String × String)
deriving Repr, DecidableEq

/-- The parsed-output accumulation step (websocket_client.py lines
190-194): a key not yet present is inserted, a present key has the delta
concatenated onto its value. -/
def mergeParsed (acc : List (String × String)) (k v : String) :
    List (String × String) :=
  if k ∈ acc.map Prod.fst then
    acc.map (fun p => if p.1 = k then (p.1, p.2 ++ v) else p)
  else acc ++ [(k, v)]

/-- The `async for item in res` loop (websocket_client.py lines 179-202):
accumulate raw output and parsed outputs and emit one running event per
chunk, in stream order. -/
def processStream : List StreamItem → String → List (String × String) →
    List RunOutEvent → String × List (String × String) × List RunOutEvent
  | [], raw, parsed, evs => (raw, parsed, evs)
  | .raw s :: rest, raw, parsed, evs =>
    processStream rest (raw ++ s) parsed (evs ++ [.runningRaw s])
  | .parsed k v :: rest, raw, parsed, evs =>
    processStream rest raw (mergeParsed parsed k v) (evs ++ [.runningParsed k v])

/-- Concatenation of a list of strings, in order (`"".join`-style). -/
def strConcat : List String → String
  | [] => ""
  | s :: rest => s ++ strConcat rest

/-- The `messages_for_run` computation (websocket_client.py lines
174-177): formatting only happens when `sample_input` is truthy, so both
`None` and an empty mapping leave the prompts unformatted. -/
def formatMessages (msg : RunMsg)
    (sample_input : Option (List (String × String))) :
    Except String (List PromptMsg) :=
  match sample_input with
  | some (kv :: kvs) =>
    msg.prompts.mapM (fun p =>
      (pyFormat p.content (kv :: kvs)).map (fun c => { p with content := c }))
  | _ => .ok msg.prompts

/-- The running event sent for one stream chunk. -/
def chunkEventOf : StreamItem → RunOutEvent
  | .raw s => .runningRaw s
  | .parsed k v => .runningParsed k v

/-- Effect of one stream chunk on the accumulated parsed outputs. -/
def parsedStep (m : List (String × String)) : StreamItem → List (String × String)
  | .raw _ => m
  | .parsed k v => mergeParsed m k v

/-- The key of a parsed-field stream chunk. -/
def parsedKeyOf : StreamItem → Option String
  | .parsed k _ => some k
  | _ => none

/-- The value of a parsed-field stream chunk carrying key `k`. -/
def parsedValOfKey (k : String) : StreamItem → Option String
  | .parsed k2 v => if k2 = k then some v else none
  | _ => none

/-- The events sent by the version-creation block (websocket_client.py
lines 144-168): when the message carries no version uuid, a new version
is created and one running event carrying the inputs
(`sample_input if sample_input else {}`) is sent before the LLM call. -/
def startEventsOf (env : RunEnv) (msg : RunMsg)
    (sample_input : Option (List (String × String))) : List RunOutEvent :=
  match msg.version_uuid with
  | none => [.runningStart env.new_version_uuid (sample_input.getD [])]
  | some _ => []

/-- The value the local `llm_module_version_uuid` holds after the
version-creation block (websocket_client.py lines 142-150): the uuid of
the freshly created version when the message carried none, else the
message's uuid. -/
def versionUuidOf (env : RunEnv) (msg : RunMsg) : String :=
  match msg.version_uuid with
  | none => env.new_version_uuid
  | some vuuid => vuuid

/-- The inner `try` block of the RUN_LLM_MODULE branch
(websocket_client.py lines 135-216). Returns the events sent so far, the
value of the local variable `llm_module_version_uuid` (none if the
exception fired before its assignment, in which case the later
`create_run_log` call raises `NameError`), the accumulated raw and parsed
outputs, and the terminal `data` payload (`completed` or `failed`).
`get_llm_module_uuid` failing on a name absent from the store raises
before `llm_module_version_uuid` is bound. `if sample_input:` is Python
truthiness: both `None` and `{}` skip formatting. The stream is modelled
as yielding all its chunks and then optionally raising. Sends themselves
are assumed to succeed (transport failures are a channel-level concern
outside this claim set). -/
def runInner (env : RunEnv) (msg : RunMsg)
    (sample_input : Option (List (String × String))) :
    List RunOutEvent × Option String × String × List (String × String) × RunOutEvent :=
  match lookupPair env.module_uuids msg.llm_module_name with
  | none => ([], none, "", [], .failed "TypeError: NoneType is not subscriptable")
  | some _llm_module_uuid =>
    let start_state : List RunOutEvent × String :=
      (startEventsOf env msg sample_input, versionUuidOf env msg)
    match formatMessages msg sample_input with
    | .error e => (start_state.1, some start_state.2, "", [], .failed e)
    | .ok _messages_for_run =>
      match processStream env.stream.items "" [] [] with
      | (raw, parsed, chunk_events) =>
        match env.stream.err with
        | some e =>
          (start_state.1 ++ chunk_events, some start_state.2, raw, parsed, .failed e)
        | none =>
          (start_state.1 ++ chunk_events, some start_state.2, raw, parsed, .completed)

/-- Sample resolution (websocket_client.py lines 110-122): `none` means
the early `return` on a missing sample row; `some si` carries
`sample_input` (`none` when no sample name was given). -/
def resolveSample (env : RunEnv) (msg : RunMsg) :
    Option (Option (List (String × String))) :=
  match msg.sample_name with
  | some sn =>
    match lookupPair env.samples sn with
    | none => none
    | some contents => some (some contents)
  | none => some none

/-- The RUN_LLM_MODULE branch after sample resolution
(websocket_client.py lines 124-228): registry check with early return,
inner try, `create_run_log`, final send of the terminal payload. An
exception raised by `create_run_log` (or the `NameError` when
`llm_module_version_uuid` was never bound) is caught by the outer
per-message handler, which sends `str(error)` as a raw payload: no run
log row is written and the terminal payload is never sent. -/
def handleRunResolved (env : RunEnv) (msg : RunMsg)
    (sample_input : Option (List (String × String))) :
    List RunOutEvent × Option RunLogRow :=
  if ¬ msg.llm_module_name ∈ env.registry_names then ([], none)
  else
    match runInner env msg sample_input with
    | (events, vu_opt, raw, parsed, terminal) =>
      match vu_opt with
      | none => (events ++ [.rawError "NameError: llm_module_version_uuid"], none)
      | some vu =>
        match env.persist_err with
        | some e => (events ++ [.rawError e], none)
        | none =>
          (events ++ [terminal],
           some { version_uuid := vu, inputs := sample_input,
                  raw_output := raw, parsed_outputs := parsed })

/-- The full RUN_LLM_MODULE handling path: resolve the sample (early
return on a missing sample), then execute. -/
def handle_run (env : RunEnv) (msg : RunMsg) :
    List RunOutEvent × Option RunLogRow :=
  match resolveSample env msg with
  | none => ([], none)
  | some sample_input => handleRunResolved env msg sample_input

/-- Does an event carry terminal-failure status? -/
def isFailedEv : RunOutEvent → Bool
  | .failed _ => true
  | _ => false

/-- Is an event terminal (status completed or failed)? -/
def isTerminalEv : RunOutEvent → Bool
  | .completed => true
  | .failed _ => true
  | _ => false

/-- The raw delta carried by a raw-chunk event. -/
def rawDeltaOf : RunOutEvent → Option String
  | .runningRaw s => some s
  | _ => none

/-- The raw delta carried by a raw stream item. -/
def rawItemOf : StreamItem → Option String
  | .raw s => some s
  | _ => none

/-! ## Sync channel reconnect loop (`DevWebsocketClient.connect_to_gateway`) -/

/-- How one connection attempt ends. Every attempt ends in an exception,
because the receive loop is `while True`: a successful connection that is
later closed by the peer surfaces as `ConnectionClosedError/OK`. -/
inductive AttemptOutcome where
  | closed
  | timeoutErr
  | otherError (s : String)
deriving Repr, DecidableEq

/-- Operator-visible effects of the reconnect loop: the log lines and
sleeps it produces. `fatal` is never emitted by the code; it exists so
the claim's expectation is expressible. -/
inductive ChannelEvent where
  | warnClosed
  | errTimeout
  | sleep (seconds : Nat)
  | errOther (s : String)
  | fatal (s : String)
deriving Repr, DecidableEq

/-- The `for _ in range(retries)` loop of `connect_to_gateway`
(websocket_client.py lines 243-269), with `attempt i` described by
`outcomes i`: a closed connection logs a warning and retries immediately,
a timeout logs an error and sleeps `retry_delay`, any other error logs
it; after the loop the function simply returns. -/
def connect_attempts (outcomes : Nat → AttemptOutcome) (retry_delay : Nat) :
    Nat → Nat → List ChannelEvent
  | _, 0 => []
  | i, budget + 1 =>
    let evs :=
      match outcomes i with
      | .closed => [ChannelEvent.warnClosed]
      | .timeoutErr => [ChannelEvent.errTimeout, ChannelEvent.sleep retry_delay]
      | .otherError s => [ChannelEvent.errOther s]
    evs ++ connect_attempts outcomes retry_delay (i + 1) budget

/-- `connect_to_gateway` with every attempt failing (the situation the
claim quantifies over); default arguments `retries=12*24`,
`retry_delay=5*60`. -/
def connect_to_gateway (outcomes : Nat → AttemptOutcome)
    (retries : Nat) (retry_delay : Nat) : List ChannelEvent :=
  connect_attempts outcomes retry_delay 0 retries

/-- The default `retries` argument, `12 * 24`. -/
def default_retries : Nat := 12 * 24

/-- The default `retry_delay` argument, `5 * 60` seconds. -/
def default_retry_delay : Nat := 5 * 60

/-- Is a channel event the fatal report the claim expects? -/
def isFatalEv : ChannelEvent → Bool
  | .fatal _ => true
  | _ => false

/-- Is a channel event the log line that one connection attempt emits? -/
def isAttemptLogEv : ChannelEvent → Bool
  | .warnClosed => true
  | .errTimeout => true
  | .errOther _ => true
  | _ => false

/-- Is a channel event a retry-delay sleep? -/
def isSleepEv : ChannelEvent → Bool
  | .sleep _ => true
  | _ => false

/-- A local store whose only module row is named `m` but flagged unused:
prior state for the C1 counterexample. -/
def c1db : LocalDB := { emptyDB with prompt_models := [⟨"u1", "m", false, false⟩] }

/-- Environment for the C2 counterexample: a healthy sample, registry and
stream, but `create_run_log` raises. -/
def c2env : RunEnv :=
  ⟨[("s", [("x", "1")])], ["m"], [("m", "mu")], "nv", ⟨[.raw "He"], none⟩,
   some "OperationalError: database is locked"⟩

/-- Run request for the C2 counterexample. -/
def c2msg : RunMsg := ⟨"m", some "s", some "v1", [⟨"user", "hi {x}"⟩], "gpt-4"⟩

/-- Environment for the C3 counterexample: module `m` exists everywhere,
but the requested sample does not. -/
def c3env : RunEnv := ⟨[], ["m"], [("m", "mu")], "nv", ⟨[], none⟩, none⟩

/-- Run request naming a sample with no row in the local store. -/
def c3msg : RunMsg := ⟨"m", some "missing", some "v", [], "gpt-4"⟩

/-- Environment whose registry is empty, for the C3 witness. -/
def c3wenv : RunEnv := ⟨[], [], [], "nv", ⟨[], none⟩, none⟩

/-- Run request naming a module absent from the registry. -/
def c3wmsg : RunMsg := ⟨"ghost", none, some "v", [], "gpt-4"⟩

/-- Snapshot for the C4 counterexample: one version owned by a module
that has no row in the local store. -/
def c4ps : ProjectStatus :=
  { emptyPS with prompt_model_versions := [⟨"v1", "m1", "working"⟩] }

/-- The store after applying the same ADD version entry twice with an
empty local module list (the only case in which the collection loop of
lines 329-340 does not raise). -/
def c4twice : LocalDB :=
  (update_prompt_model_version_changelog "ADD" c4ps ["v1"] (some []) []
    (update_prompt_model_version_changelog "ADD" c4ps ["v1"] (some []) []
      emptyDB).1).1

/-- Environment for the C6 counterexample: a healthy two-delta stream,
but `create_run_log` raises. -/
def c6cenv : RunEnv :=
  ⟨[], ["m"], [("m", "mu")], "nv", ⟨[.raw "Hel", .raw "lo"], none⟩,
   some "OSError: disk full"⟩

/-- Run request for the C6 counterexample. -/
def c6cmsg : RunMsg := ⟨"m", none, some "v1", [], "gpt-4"⟩

/-! ## Claim theorems -/

/-- Claim C10 (code bug): the bump arithmetic of reload_handler.py lines
224-269 computes exactly the claimed rule from the entry's
previous-version string (conjuncts 1-3: level 1 increments major and
zeroes minor and patch, level 2 keeps major, increments minor and zeroes
patch, any other level increments only patch), but this code is
unreachable: the driver raises `AttributeError` at its initial store
read (lines 173-178) before consuming any entry, so no bumped version is
ever computed or persisted (conjunct 4: the driver leaves the store
unchanged and propagates the exception on every input). -/
theorem C10_version_bump (prev p0 p1 p2 : String) (a b c : Int)
    (hsplit : splitDots prev = [p0, p1, p2])
    (h0 : pyInt p0 = some a) (h1 : pyInt p1 = some b) (h2 : pyInt p2 = some c) :
    bump_version 1 prev = .ok (toString (a + 1) ++ "." ++ "0" ++ "." ++ "0")
    ∧ bump_version 2 prev = .ok (p0 ++ "." ++ toString (b + 1) ++ "." ++ "0")
    ∧ (∀ L : Int, L ≠ 1 → L ≠ 2 →
        bump_version L prev = .ok (p0 ++ "." ++ p1 ++ "." ++ toString (c + 1)))
    ∧ (∀ (changelogs : List ChangelogEntry) (ps : ProjectStatus)
        (cp cc : List String) (db : LocalDB) (pv : String),
        update_by_changelog_for_reload changelogs ps cp cc db pv
          = (db, .error attributeErrorMsg)) := by
  refine ⟨?_, ?_, ?_, ?_⟩
  · simp [bump_version, hsplit, h0]
  · simp [bump_version, hsplit, h1]
  · intro L hL1 hL2
    simp [bump_version, hsplit, h2, hL1, hL2]
  · intro changelogs ps cp cc db pv
    rfl

/-- Witness for C10 at the concrete previous version `1.2.3`. -/
theorem C10_version_bump_witness :
    bump_version 1 "1.2.3" = .ok "2.0.0"
    ∧ bump_version 2 "1.2.3" = .ok "1.3.0"
    ∧ bump_version 7 "1.2.3" = .ok "1.2.4" := by
  have h := C10_version_bump "1.2.3" "1" "2" "3" 1 2 3
    (by decide) (by decide) (by decide) (by decide)
  exact ⟨h.1, h.2.1, h.2.2.1 7 (by decide) (by decide)⟩

/-- Claim C9 (code bug): the claim says a DELETE/CHANGE/FIX entry has no
local effect and subsequent entries in the batch are still applied. In
the code no entry of any kind is ever examined: the driver raises
`AttributeError` at its initial store read (lines 173-178), so the
DELETE entry of the batch has no effect only because the whole batch
aborts, and the subsequent ADD entry is never applied (first conjunct:
the store is returned unchanged with the exception). The second conjunct
exhibits the version-subject function's own latent slip when called
directly with an empty local module list (the one case in which its
collection loop does not raise): a DELETE action leaves the store
unchanged but falls off the function, returning `None` despite the
declared `List` return annotation. -/
theorem C9_driver_crashes_before_entries :
    update_by_changelog_for_reload
        [⟨1, [⟨"prompt_model_version", "DEL", []⟩,
              ⟨"prompt_model", "ADD", ["r1"]⟩], "0.1.0"⟩]
        { emptyPS with prompt_models := [⟨"r1", "newmod"⟩] }
        ["newmod"] [] emptyDB "0.1.0"
      = (emptyDB, .error attributeErrorMsg)
    ∧ update_prompt_model_version_changelog "DEL"
        { emptyPS with prompt_models := [⟨"r1", "newmod"⟩] } []
        (some []) ["newmod"] emptyDB
      = (emptyDB, .ok none) := by
  decide

/-- Counterexample to C3: a run request whose sample name has no local
row produces no event at all (the handler logs and returns early), so the
failure is silently dropped rather than converted to a terminal failure
event plus a run log row. -/
theorem C3_counterexample :
    handle_run c3env c3msg = ([], none)
    ∧ (handle_run c3env c3msg).1.countP isTerminalEv = 0 := by
  decide

/-- Claim C3 (amended): a run request whose sample name is not found in
the local store, or whose module name is absent from the live registry,
makes the handler log the error and return early: no event is emitted
(in particular no terminal failure event) and no run log row is
persisted; the handler does not crash. -/
theorem C3_unknown_inputs_silently_dropped (env : RunEnv) (msg : RunMsg)
    (h : resolveSample env msg = none
         ∨ ¬ msg.llm_module_name ∈ env.registry_names) :
    handle_run env msg = ([], none) := by
  rcases h with h | h
  · simp [handle_run, h]
  · cases hres : resolveSample env msg with
    | none => simp [handle_run, hres]
    | some si => simp [handle_run, hres, handleRunResolved, h]

/-- Witness for C3 at a module name absent from the registry. -/
theorem C3_unknown_inputs_witness : handle_run c3wenv c3wmsg = ([], none) :=
  C3_unknown_inputs_silently_dropped c3wenv c3wmsg (Or.inr (by decide))

/-- Counterexample to C2: when `create_run_log` itself raises (an
exception during persistence), the handler persists no run log row and
emits no terminal failure event (the outer per-message handler sends the
bare error string instead), contradicting the claim that every such run
yields a persisted row plus exactly one failure event. -/
theorem C2_counterexample :
    (handle_run c2env c2msg).2 = none
    ∧ (handle_run c2env c2msg).1.countP isFailedEv = 0 := by
  decide

/-- Claim C1 (code bug): the reconciliation pass never completes. The
changelog driver raises `AttributeError` at its initial store read
(lines 173-178) and the exception propagates out of `reload_code` before
any module is marked used. At the concrete input, module `m` sits in
both registry name lists but is flagged unused in the store; the pass
aborts with the store untouched, so the flag-true name set (empty) never
comes to equal the new registry name set (`[m]`). The last conjunct
shows this is not an artifact of the input: every reload pass returns
the `AttributeError`. -/
theorem C1_reload_crashes_before_flag_sync :
    reload_code ["m"] ["m"] [] [] [] emptyPS c1db "0.1.0"
      = (c1db, .error attributeErrorMsg)
    ∧ (c1db.prompt_models.filter (·.used_in_code)).map (·.name) = []
    ∧ ¬ ([] : List String) = ["m"]
    ∧ ∀ (old_pm new_pm old_cm new_cm : List String)
        (changelogs : List ChangelogEntry) (ps : ProjectStatus)
        (db : LocalDB) (pv : String),
        (reload_code old_pm new_pm old_cm new_cm changelogs ps db pv).2
          = .error attributeErrorMsg := by
  refine ⟨by decide, by decide, by decide, ?_⟩
  intro old_pm new_pm old_cm new_cm changelogs ps db pv
  rfl

/-- Claim C4 (code bug): the idempotence guard never works. The
identifier-presence filter (lines 341-347) is only reachable when the
local module list is empty, because the collection loop (lines 329-340)
calls `model_to_dict` on the `ModelSelect` query object and raises
`AttributeError` for every local module it visits. With an empty module
list the collection gathers nothing, so the same ADD entry applied twice
inserts its version twice (first conjunct: two rows for identifier
`v1`); with a non-empty module list the call raises before the filter
runs (second conjunct). In neither case does the second application
filter out the already-present identifier. -/
theorem C4_guard_never_filters :
    (c4twice.versions.filter (fun v => decide (v.uuid = "v1"))).length = 2
    ∧ update_prompt_model_version_changelog "ADD" c4ps ["v1"]
        (some [⟨"m1", "mod", true, true⟩]) [] emptyDB
      = (emptyDB, .error attributeErrorMsg) := by
  decide

/-- Per-attempt event counts of the reconnect loop: no fatal report is
ever produced, every attempt logs exactly one line, and a sleep happens
exactly after the timeout-failing attempts. -/
theorem connect_attempts_counts (outcomes : Nat → AttemptOutcome) (delay : Nat)
    (budget : Nat) : ∀ i : Nat,
    (connect_attempts outcomes delay i budget).countP isFatalEv = 0
    ∧ (connect_attempts outcomes delay i budget).countP isAttemptLogEv = budget
    ∧ (connect_attempts outcomes delay i budget).countP isSleepEv
        = ((List.range' i budget).filter
            (fun j => decide (outcomes j = .timeoutErr))).length := by
  induction budget with
  | zero => intro i; simp [connect_attempts]
  | succ n ih =>
    intro i
    obtain ⟨ih1, ih2, ih3⟩ := ih (i + 1)
    rcases h : outcomes i with _ | _ | s <;>
      simp [connect_attempts, h, List.countP_append, ih1, ih2, ih3,
        List.range'_succ, isFatalEv, isAttemptLogEv, isSleepEv, List.countP_cons]

/-- Counterexample to C8: with every one of the default `12*24` attempts
failing by timeout, the loop produces zero fatal reports, not exactly
one. -/
theorem C8_counterexample :
    (connect_to_gateway (fun _ => .timeoutErr)
        default_retries default_retry_delay).countP isFatalEv = 0
    ∧ ¬ (0 : Nat) = 1 := by
  constructor
  · exact (connect_attempts_counts (fun _ => .timeoutErr) default_retry_delay
      default_retries 0).1
  · decide

/-- Claim C8 (amended): if every connection attempt fails, the channel
makes exactly the configured number of attempts (default `12*24`),
sleeping the retry delay only after timeout failures (closed connections
retry immediately), and then stops retrying; it returns without ever
reporting a fatal condition to the operator. -/
theorem C8_bounded_retry_no_fatal (outcomes : Nat → AttemptOutcome)
    (retries retry_delay : Nat) :
    (connect_to_gateway outcomes retries retry_delay).countP isFatalEv = 0
    ∧ (connect_to_gateway outcomes retries retry_delay).countP isAttemptLogEv = retries
    ∧ (connect_to_gateway outcomes retries retry_delay).countP isSleepEv
        = ((List.range retries).filter
            (fun j => decide (outcomes j = .timeoutErr))).length := by
  have h := connect_attempts_counts outcomes retry_delay retries 0
  simpa [connect_to_gateway, List.range_eq_range'] using h

/-- Unfolding lemma for `lookupPair` on a cons cell. -/
theorem lookupPair_cons {α : Type} (p : String × α) (rest : List (String × α))
    (k : String) :
    lookupPair (p :: rest) k = if p.1 = k then some p.2 else lookupPair rest k := by
  by_cases h : p.1 = k <;> simp [lookupPair, List.find?_cons, h]

/-- `lookupPair` succeeds exactly on the keys of the list. -/
theorem lookupPair_isSome_iff {α : Type} (m : List (String × α)) (k : String) :
    (lookupPair m k).isSome = true ↔ k ∈ m.map Prod.fst := by
  induction m with
  | nil => simp [lookupPair]
  | cons p rest ih =>
    by_cases h : p.1 = k
    · simp [lookupPair_cons, h]
    · have h2 : ¬ k = p.1 := fun hh => h hh.symm
      simp [lookupPair_cons, h, h2, ih]

/-- Looking up through the in-place concatenation map of `mergeParsed`. -/
theorem lookupPair_map_upd (m : List (String × String)) (k v k' : String) :
    lookupPair (m.map (fun p => if p.1 = k then (p.1, p.2 ++ v) else p)) k'
      = if k' = k then (lookupPair m k').map (· ++ v) else lookupPair m k' := by
  induction m with
  | nil => simp [lookupPair]
  | cons p rest ih =>
    by_cases h1 : p.1 = k' <;> by_cases h2 : p.1 = k
    · subst h1; subst h2
      simp [lookupPair_cons, ih]
    · subst h1
      have : ¬ p.1 = k := h2
      simp [lookupPair_cons, this, Ne.symm h2]
    · subst h2
      have hne : ¬ k' = p.1 := fun hh => h1 hh.symm
      simp [lookupPair_cons, h1, hne, ih]
    · simp [lookupPair_cons, h1, h2, ih]

/-- Appending a fresh pair: lookup of a key absent from the prefix. -/
theorem lookupPair_append_right {α : Type} (m : List (String × α))
    (x : String × α) (k' : String) (h : ¬ k' ∈ m.map Prod.fst) :
    lookupPair (m ++ [x]) k' = if x.1 = k' then some x.2 else none := by
  induction m with
  | nil => simp [lookupPair_cons, lookupPair]
  | cons p rest ih =>
    simp only [List.map_cons, List.mem_cons] at h
    push_neg at h
    have : ¬ p.1 = k' := fun hh => h.1 hh.symm
    simpa [lookupPair_cons, this] using ih h.2

/-- Appending a pair: lookup of a key present in the prefix. -/
theorem lookupPair_append_left {α : Type} (m : List (String × α))
    (x : String × α) (k' : String) (h : k' ∈ m.map Prod.fst) :
    lookupPair (m ++ [x]) k' = lookupPair m k' := by
  induction m with
  | nil => simp at h
  | cons p rest ih =>
    by_cases h1 : p.1 = k'
    · simp [lookupPair_cons, h1]
    · simp only [List.map_cons, List.mem_cons] at h
      rcases h with h | h
      · exact absurd h.symm h1
      · simpa [lookupPair_cons, h1] using ih h

/-- `mergeParsed` at the merged key: first occurrence inserts, later
occurrences append to the existing value. -/
theorem mergeParsed_lookup_self (m : List (String × String)) (k v : String) :
    lookupPair (mergeParsed m k v) k
      = some ((lookupPair m k).getD "" ++ v) := by
  by_cases h : k ∈ m.map Prod.fst
  · obtain ⟨val, hval⟩ := Option.isSome_iff_exists.mp ((lookupPair_isSome_iff m k).mpr h)
    simp [mergeParsed, h, lookupPair_map_upd, hval]
  · have hnone : lookupPair m k = none := by
      cases hl : lookupPair m k with
      | none => rfl
      | some z =>
        exact absurd ((lookupPair_isSome_iff m k).mp (by simp [hl])) h
    simp [mergeParsed, h, lookupPair_append_right m (k, v) k h, hnone,
      String.empty_append]

/-- `mergeParsed` leaves every other key unchanged. -/
theorem mergeParsed_lookup_other (m : List (String × String)) (k v k' : String)
    (h : k' ≠ k) :
    lookupPair (mergeParsed m k v) k' = lookupPair m k' := by
  by_cases hk : k ∈ m.map Prod.fst
  · simp [mergeParsed, hk, lookupPair_map_upd, h]
  · by_cases hk' : k' ∈ m.map Prod.fst
    · simp [mergeParsed, hk, lookupPair_append_left m (k, v) k' hk']
    · have hnone : lookupPair m k' = none := by
        cases hl : lookupPair m k' with
        | none => rfl
        | some z =>
          exact absurd ((lookupPair_isSome_iff m k').mp (by simp [hl])) hk'
      have : ¬ k = k' := fun hh => h hh.symm
      simp [mergeParsed, hk, lookupPair_append_right m (k, v) k' hk', this, hnone]

/-- The key set after `mergeParsed`. -/
theorem mergeParsed_keys_mem (m : List (String × String)) (k v k' : String) :
    k' ∈ (mergeParsed m k v).map Prod.fst ↔ k' = k ∨ k' ∈ m.map Prod.fst := by
  by_cases h : k ∈ m.map Prod.fst
  · have hkeys : (m.map (fun p => if p.1 = k then (p.1, p.2 ++ v) else p)).map Prod.fst
        = m.map Prod.fst := by
      rw [List.map_map]
      apply List.map_congr_left
      intro p _
      by_cases hp : p.1 = k <;> simp [hp]
    simp only [mergeParsed, if_pos h, hkeys]
    constructor
    · exact Or.inr
    · rintro (rfl | hh)
      · exact h
      · exact hh
  · simp [mergeParsed, h, or_comm]

/-- Full characterization of the streaming loop: the accumulated raw
output is the concatenation of the raw deltas, the accumulated parsed
output is the fold of `parsedStep`, and exactly one running event is
appended per chunk, in stream order. -/
theorem processStream_spec (items : List StreamItem) :
    ∀ (raw : String) (parsed : List (String × String)) (evs : List RunOutEvent),
    processStream items raw parsed evs
      = (raw ++ strConcat (items.filterMap rawItemOf),
         items.foldl parsedStep parsed,
         evs ++ items.map chunkEventOf) := by
  induction items with
  | nil =>
    intro raw parsed evs
    simp [processStream, strConcat, String.append_empty]
  | cons it rest ih =>
    intro raw parsed evs
    cases it with
    | raw s =>
      simp [processStream, ih, rawItemOf, strConcat, chunkEventOf, parsedStep,
        String.append_assoc]
    | parsed k v =>
      simp [processStream, ih, rawItemOf, strConcat, chunkEventOf, parsedStep]

/-- Looking up a key in the parsed-output accumulation fold: present iff
it occurs among the initial keys or the deltas, and its value is the
initial value extended by the concatenation of all deltas for that key,
in order. -/
theorem foldl_parsedStep_lookup (items : List StreamItem) :
    ∀ (parsed : List (String × String)) (k : String),
    lookupPair (items.foldl parsedStep parsed) k
      = if k ∈ parsed.map Prod.fst ∨ k ∈ items.filterMap parsedKeyOf then
          some ((lookupPair parsed k).getD ""
            ++ strConcat (items.filterMap (parsedValOfKey k)))
        else none := by
  induction items with
  | nil =>
    intro parsed k
    by_cases h : k ∈ parsed.map Prod.fst
    · obtain ⟨val, hval⟩ :=
        Option.isSome_iff_exists.mp ((lookupPair_isSome_iff parsed k).mpr h)
      simp [h, hval, parsedKeyOf, strConcat, String.append_empty]
    · have hnone : lookupPair parsed k = none := by
        cases hl : lookupPair parsed k with
        | none => rfl
        | some z =>
          exact absurd ((lookupPair_isSome_iff parsed k).mp (by simp [hl])) h
      simp [h, hnone, parsedKeyOf]
  | cons it rest ih =>
    intro parsed k
    cases it with
    | raw s =>
      simp [parsedStep, ih, List.filterMap_cons, parsedKeyOf, parsedValOfKey]
    | parsed k2 v =>
      by_cases hk : k2 = k
      · subst hk
        have hmem : k2 ∈ (mergeParsed parsed k2 v).map Prod.fst :=
          (mergeParsed_keys_mem parsed k2 v k2).mpr (Or.inl rfl)
        have hloo := mergeParsed_lookup_self parsed k2 v
        simp only [List.foldl_cons, parsedStep, ih, hmem, true_or, if_pos,
          List.filterMap_cons, parsedKeyOf, parsedValOfKey, if_pos rfl]
        simp [hloo, strConcat, String.append_assoc]
      · have hkeys := mergeParsed_keys_mem parsed k2 v k
        have hloo := mergeParsed_lookup_other parsed k2 v k (fun hh => hk hh.symm)
        have hne2 : ¬ k = k2 := fun hh => hk hh.symm
        simp only [List.foldl_cons, parsedStep, ih, hloo, List.filterMap_cons,
          parsedKeyOf, parsedValOfKey, if_neg hk]
        by_cases hc : k ∈ parsed.map Prod.fst ∨ k ∈ rest.filterMap parsedKeyOf
        · rcases hc with hc | hc
          · simp [hkeys, hc, hne2]
          · simp [hkeys, hc, hne2]
        · push_neg at hc
          simp [hkeys, hc.1, hc.2, hne2]

/-- Each per-chunk running event carries the same raw delta as its
chunk. -/
theorem filterMap_chunkEvents (items : List StreamItem) :
    (items.map chunkEventOf).filterMap rawDeltaOf = items.filterMap rawItemOf := by
  induction items with
  | nil => rfl
  | cons it rest ih => cases it <;> simp [chunkEventOf, rawDeltaOf, rawItemOf, ih]

/-- Per-chunk running events are never terminal. -/
theorem chunkEvents_no_terminal (items : List StreamItem) :
    (items.map chunkEventOf).countP isTerminalEv = 0 := by
  induction items with
  | nil => rfl
  | cons it rest ih =>
    cases it <;> simp [chunkEventOf, isTerminalEv, List.countP_cons, ih]

/-- Per-chunk running events are never failure events. -/
theorem chunkEvents_no_failed (items : List StreamItem) :
    (items.map chunkEventOf).countP isFailedEv = 0 := by
  induction items with
  | nil => rfl
  | cons it rest ih =>
    cases it <;> simp [chunkEventOf, isFailedEv, List.countP_cons, ih]

/-- The version-creation events contain no failure event. -/
theorem startEvents_no_failed (env : RunEnv) (msg : RunMsg)
    (si : Option (List (String × String))) :
    (startEventsOf env msg si).countP isFailedEv = 0 := by
  unfold startEventsOf
  cases msg.version_uuid <;> simp [isFailedEv, List.countP_cons]

/-- The version-creation events contain no terminal event. -/
theorem startEvents_no_terminal (env : RunEnv) (msg : RunMsg)
    (si : Option (List (String × String))) :
    (startEventsOf env msg si).countP isTerminalEv = 0 := by
  unfold startEventsOf
  cases msg.version_uuid <;> simp [isTerminalEv, List.countP_cons]

/-- The version-creation events carry no raw delta. -/
theorem startEvents_rawFilter (env : RunEnv) (msg : RunMsg)
    (si : Option (List (String × String))) :
    (startEventsOf env msg si).filterMap rawDeltaOf = [] := by
  unfold startEventsOf
  cases msg.version_uuid <;> simp [rawDeltaOf]

/-- Shape of the inner try block when formatting raises: no chunk is
streamed, the outputs stay empty, and the terminal payload is `failed`
with the formatting error. -/
theorem runInner_fmt_err (env : RunEnv) (msg : RunMsg)
    (si : Option (List (String × String))) (u e : String)
    (hu : lookupPair env.module_uuids msg.llm_module_name = some u)
    (hf : formatMessages msg si = .error e) :
    runInner env msg si
      = (startEventsOf env msg si, some (versionUuidOf env msg), "", [],
         .failed e) := by
  simp [runInner, hu, hf]

/-- Shape of the inner try block when formatting succeeds: one running
event per chunk in stream order after the version-creation events, the
accumulated outputs, and a terminal payload decided by whether the stream
raised. -/
theorem runInner_ok (env : RunEnv) (msg : RunMsg)
    (si : Option (List (String × String))) (u : String) (ms : List PromptMsg)
    (hu : lookupPair env.module_uuids msg.llm_module_name = some u)
    (hf : formatMessages msg si = .ok ms) :
    runInner env msg si
      = (startEventsOf env msg si ++ env.stream.items.map chunkEventOf,
         some (versionUuidOf env msg),
         strConcat (env.stream.items.filterMap rawItemOf),
         env.stream.items.foldl parsedStep [],
         match env.stream.err with
         | some e => RunOutEvent.failed e
         | none => RunOutEvent.completed) := by
  have hps := processStream_spec env.stream.items "" [] []
  cases he : env.stream.err <;>
    simp [runInner, hu, hf, hps, he, String.empty_append]

/-- The events emitted before the terminal payload never include a
failure event. -/
theorem runInner_events_no_failed (env : RunEnv) (msg : RunMsg)
    (si : Option (List (String × String))) :
    (runInner env msg si).1.countP isFailedEv = 0 := by
  cases hu : lookupPair env.module_uuids msg.llm_module_name with
  | none => simp [runInner, hu]
  | some u =>
    cases hf : formatMessages msg si with
    | error e =>
      simp [runInner_fmt_err env msg si u e hu hf, startEvents_no_failed]
    | ok ms =>
      simp [runInner_ok env msg si u ms hu hf, List.countP_append,
        startEvents_no_failed, chunkEvents_no_failed]
      intro a _
      cases a <;> rfl

/-- The events emitted before the terminal payload never include a
terminal event. -/
theorem runInner_events_no_terminal (env : RunEnv) (msg : RunMsg)
    (si : Option (List (String × String))) :
    (runInner env msg si).1.countP isTerminalEv = 0 := by
  cases hu : lookupPair env.module_uuids msg.llm_module_name with
  | none => simp [runInner, hu]
  | some u =>
    cases hf : formatMessages msg si with
    | error e =>
      simp [runInner_fmt_err env msg si u e hu hf, startEvents_no_terminal]
    | ok ms =>
      simp [runInner_ok env msg si u ms hu hf, List.countP_append,
        startEvents_no_terminal, chunkEvents_no_terminal]
      intro a _
      cases a <;> rfl

/-- When the module uuid lookup succeeds, `llm_module_version_uuid` is
bound by the time `create_run_log` runs. -/
theorem runInner_vu (env : RunEnv) (msg : RunMsg)
    (si : Option (List (String × String))) (u : String)
    (hu : lookupPair env.module_uuids msg.llm_module_name = some u) :
    (runInner env msg si).2.1 = some (versionUuidOf env msg) := by
  cases hf : formatMessages msg si with
  | error e => simp [runInner_fmt_err env msg si u e hu hf]
  | ok ms => simp [runInner_ok env msg si u ms hu hf]

/-- Unfolding of the handler once the sample is resolved, the module is
in the registry, the version uuid is bound and persistence succeeds: the
terminal payload is sent after the inner events and exactly one run log
row is written. -/
theorem handleRunResolved_persist (env : RunEnv) (msg : RunMsg)
    (si : Option (List (String × String))) (vu : String)
    (hreg : msg.llm_module_name ∈ env.registry_names)
    (hpersist : env.persist_err = none)
    (hvu : (runInner env msg si).2.1 = some vu) :
    handleRunResolved env msg si
      = ((runInner env msg si).1 ++ [(runInner env msg si).2.2.2.2],
         some { version_uuid := vu, inputs := si,
                raw_output := (runInner env msg si).2.2.1,
                parsed_outputs := (runInner env msg si).2.2.2.1 }) := by
  unfold handleRunResolved
  rcases hri : runInner env msg si with ⟨evs, vuo, raw, parsed, term⟩
  rw [hri] at hvu
  simp only at hvu
  subst hvu
  simp [hreg, hpersist]

/-- Unfolding of the handler when persistence raises: the exception from
`create_run_log` reaches the outer per-message handler, which sends the
bare error string; no run log row is written and the terminal payload is
never sent. -/
theorem handleRunResolved_persist_err (env : RunEnv) (msg : RunMsg)
    (si : Option (List (String × String))) (vu e : String)
    (hreg : msg.llm_module_name ∈ env.registry_names)
    (hpersist : env.persist_err = some e)
    (hvu : (runInner env msg si).2.1 = some vu) :
    handleRunResolved env msg si
      = ((runInner env msg si).1 ++ [.rawError e], none) := by
  unfold handleRunResolved
  rcases hri : runInner env msg si with ⟨evs, vuo, raw, parsed, term⟩
  rw [hri] at hvu
  simp only at hvu
  subst hvu
  simp [hreg, hpersist]

/-- Unfolding of the handler at a resolved sample. -/
theorem handle_run_resolved (env : RunEnv) (msg : RunMsg)
    (si : Option (List (String × String)))
    (hres : resolveSample env msg = some si) :
    handle_run env msg = handleRunResolved env msg si := by
  simp [handle_run, hres]

/-- Claim C7: for every parsed-field delta sequence in a run, the
accumulated parsed-output mapping inserts a key on its first occurrence
and concatenates onto the existing value on every later occurrence,
never overwriting: the final value of any key occurring in the stream is
the in-order concatenation of all deltas for that key. -/
theorem C7_parsed_accumulation (items : List StreamItem) (k : String)
    (h : k ∈ items.filterMap parsedKeyOf) :
    lookupPair (processStream items "" [] []).2.1 k
      = some (strConcat (items.filterMap (parsedValOfKey k))) := by
  rw [processStream_spec items "" [] []]
  have hfold := foldl_parsedStep_lookup items [] k
  simpa [lookupPair, h, String.empty_append] using hfold

/-- Witness for C7 at the deltas `{name: "Al"}` then `{name: "ice"}`,
accumulating to `{name: "Alice"}`. -/
theorem C7_parsed_accumulation_witness :
    lookupPair
        (processStream [.parsed "name" "Al", .parsed "name" "ice"] "" [] []).2.1
        "name"
      = some "Alice" := by
  have h := C7_parsed_accumulation [.parsed "name" "Al", .parsed "name" "ice"]
    "name" (by decide)
  simpa using h

/-- Claim C2 (amended): if an exception is raised during prompt
formatting or LLM streaming (and persistence succeeds), the handler
persists exactly one Run Log row -- holding the accumulated, possibly
empty, outputs and no error field -- and sends the events produced so far
followed by exactly one terminal failure event carrying the error text,
which is the last event; the handler itself returns normally, so no
exception propagates. (When persistence itself raises, the outer
per-message handler instead sends the error string and persists nothing;
see the counterexample.) -/
theorem C2_run_failure_terminal_event (env : RunEnv) (msg : RunMsg)
    (si : Option (List (String × String)))
    (hres : resolveSample env msg = some si)
    (hreg : msg.llm_module_name ∈ env.registry_names)
    (hvu : (lookupPair env.module_uuids msg.llm_module_name).isSome = true)
    (hpersist : env.persist_err = none)
    (hfail : isFailedEv (runInner env msg si).2.2.2.2 = true) :
    handle_run env msg
      = ((runInner env msg si).1 ++ [(runInner env msg si).2.2.2.2],
         some { version_uuid := versionUuidOf env msg, inputs := si,
                raw_output := (runInner env msg si).2.2.1,
                parsed_outputs := (runInner env msg si).2.2.2.1 })
    ∧ (handle_run env msg).1.countP isFailedEv = 1
    ∧ ((handle_run env msg).1.getLast?.map isFailedEv) = some true := by
  obtain ⟨u, hu⟩ := Option.isSome_iff_exists.mp hvu
  have hvus := runInner_vu env msg si u hu
  have hmain : handle_run env msg
      = ((runInner env msg si).1 ++ [(runInner env msg si).2.2.2.2],
         some { version_uuid := versionUuidOf env msg, inputs := si,
                raw_output := (runInner env msg si).2.2.1,
                parsed_outputs := (runInner env msg si).2.2.2.1 }) := by
    rw [handle_run_resolved env msg si hres]
    exact handleRunResolved_persist env msg si (versionUuidOf env msg)
      hreg hpersist hvus
  refine ⟨hmain, ?_, ?_⟩
  · rw [hmain]
    simp [List.countP_append, runInner_events_no_failed, List.countP_cons, hfail]
  · rw [hmain]
    simp [List.getLast?_concat, hfail]

/-- Witness for C2 at a missing-field template failure: prompt
`hi {x}` formatted against a sample providing only `y` raises `KeyError`
and terminates with a single failure event plus a persisted row with
empty outputs. -/
theorem C2_run_failure_terminal_event_witness :
    handle_run ⟨[("s", [("y", "1")])], ["m"], [("m", "mu")], "nv",
        ⟨[], none⟩, none⟩
      ⟨"m", some "s", some "v1", [⟨"user", "hi {x}"⟩], "gpt-4"⟩
      = ([RunOutEvent.failed "KeyError: x"],
         some { version_uuid := "v1", inputs := some [("y", "1")],
                raw_output := "", parsed_outputs := [] }) := by
  have h := C2_run_failure_terminal_event
    ⟨[("s", [("y", "1")])], ["m"], [("m", "mu")], "nv", ⟨[], none⟩, none⟩
    ⟨"m", some "s", some "v1", [⟨"user", "hi {x}"⟩], "gpt-4"⟩
    (some [("y", "1")]) (by decide) (by decide) (by decide) (by decide) (by decide)
  exact h.1

/-- Counterexample to C6: when `create_run_log` raises, the ordered
raw-chunk events were already sent, but no terminal event at all follows
them -- the outer per-message handler sends a bare error string instead
-- so "exactly one terminal event" fails. -/
theorem C6_counterexample :
    (handle_run c6cenv c6cmsg).1.filterMap rawDeltaOf = ["Hel", "lo"]
    ∧ (handle_run c6cenv c6cmsg).1.countP isTerminalEv = 0 := by
  decide

/-- Claim C6 (amended): for every run whose LLM stream produces raw-text
deltas in a given order, the raw-chunk events are emitted in exactly
that order and their concatenation equals the final accumulated raw
output. Only when `create_run_log` does not raise is that concatenation
what the persisted row records, with exactly one terminal event after
the chunks, as the last event; when persistence raises, the raw deltas
were still emitted in order but no terminal event at all follows and no
row is written. -/
theorem C6_stream_order (env : RunEnv) (msg : RunMsg)
    (si : Option (List (String × String)))
    (hres : resolveSample env msg = some si)
    (hreg : msg.llm_module_name ∈ env.registry_names)
    (hvu : (lookupPair env.module_uuids msg.llm_module_name).isSome = true)
    (hfmt : (formatMessages msg si).toOption.isSome = true) :
    (handle_run env msg).1.filterMap rawDeltaOf
        = env.stream.items.filterMap rawItemOf
    ∧ strConcat ((handle_run env msg).1.filterMap rawDeltaOf)
        = (runInner env msg si).2.2.1
    ∧ (env.persist_err = none →
        ((handle_run env msg).2.map (·.raw_output))
            = some (strConcat (env.stream.items.filterMap rawItemOf))
        ∧ (handle_run env msg).1.countP isTerminalEv = 1
        ∧ ((handle_run env msg).1.getLast?.map isTerminalEv) = some true)
    ∧ (∀ e, env.persist_err = some e →
        (handle_run env msg).1.countP isTerminalEv = 0
        ∧ (handle_run env msg).2 = none) := by
  obtain ⟨u, hu⟩ := Option.isSome_iff_exists.mp hvu
  obtain ⟨ms, hf⟩ : ∃ ms, formatMessages msg si = .ok ms := by
    cases hc : formatMessages msg si with
    | error e => rw [hc] at hfmt; simp [Except.toOption] at hfmt
    | ok ms => exact ⟨ms, rfl⟩
  have hri := runInner_ok env msg si u ms hu hf
  have hvus := runInner_vu env msg si u hu
  have hterm : isTerminalEv (runInner env msg si).2.2.2.2 = true := by
    rw [hri]
    cases env.stream.err <;> simp [isTerminalEv]
  cases hpe : env.persist_err with
  | none =>
    have hmain := (handle_run_resolved env msg si hres).trans
      (handleRunResolved_persist env msg si (versionUuidOf env msg)
        hreg hpe hvus)
    have h1 : (handle_run env msg).1.filterMap rawDeltaOf
        = env.stream.items.filterMap rawItemOf := by
      rw [hmain, hri]
      simp only [List.filterMap_append, startEvents_rawFilter, List.nil_append,
        filterMap_chunkEvents]
      cases env.stream.err <;> simp [rawDeltaOf]
    refine ⟨h1, ?_, ?_, ?_⟩
    · rw [h1, hri]
    · intro _
      refine ⟨?_, ?_, ?_⟩
      · rw [hmain, hri]
        rfl
      · rw [hmain]
        simp [List.countP_append, runInner_events_no_terminal,
          List.countP_cons, hterm]
      · rw [hmain]
        simp [List.getLast?_concat, hterm]
    · intro e he
      exact absurd he (by simp)
  | some e0 =>
    have hmain := (handle_run_resolved env msg si hres).trans
      (handleRunResolved_persist_err env msg si (versionUuidOf env msg) e0
        hreg hpe hvus)
    have h1 : (handle_run env msg).1.filterMap rawDeltaOf
        = env.stream.items.filterMap rawItemOf := by
      rw [hmain, hri]
      simp only [List.filterMap_append, startEvents_rawFilter, List.nil_append,
        filterMap_chunkEvents]
      simp [rawDeltaOf]
    refine ⟨h1, ?_, ?_, ?_⟩
    · rw [h1, hri]
    · intro hc
      exact absurd hc (by simp)
    · intro e he
      refine ⟨?_, ?_⟩
      · rw [hmain]
        simp [List.countP_append, runInner_events_no_terminal,
          List.countP_cons, isTerminalEv]
      · rw [hmain]

/-- Witness for C6 at the deltas `["Hel", "lo"]`, which arrive as two
raw-chunk events concatenating to `"Hello"`. -/
theorem C6_stream_order_witness :
    (handle_run ⟨[], ["m"], [("m", "mu")], "nv",
        ⟨[.raw "Hel", .raw "lo"], none⟩, none⟩
      ⟨"m", none, some "v1", [], "gpt-4"⟩).1.filterMap rawDeltaOf
        = ["Hel", "lo"]
    ∧ ((handle_run ⟨[], ["m"], [("m", "mu")], "nv",
        ⟨[.raw "Hel", .raw "lo"], none⟩, none⟩
      ⟨"m", none, some "v1", [], "gpt-4"⟩).2.map (·.raw_output))
        = some "Hello"
    ∧ (handle_run ⟨[], ["m"], [("m", "mu")], "nv",
        ⟨[.raw "Hel", .raw "lo"], none⟩, none⟩
      ⟨"m", none, some "v1", [], "gpt-4"⟩).1.countP isTerminalEv = 1 := by
  have h := C6_stream_order
    ⟨[], ["m"], [("m", "mu")], "nv", ⟨[.raw "Hel", .raw "lo"], none⟩, none⟩
    ⟨"m", none, some "v1", [], "gpt-4"⟩ none
    (by decide) (by decide) (by decide) (by decide)
  exact ⟨h.1, (h.2.2.1 rfl).1, (h.2.2.1 rfl).2.1⟩

/-- Claim C5 (code bug): for a pre-existing local module named `foo`
with local identifier `L` and a remote snapshot ADD entry introducing
module `foo` with remote identifier `R`, reconciliation takes the remap
branch and performs exactly the claimed remap -- no row is inserted (the
row count is unchanged and exactly one `foo` row remains), the `foo`
row's identifier becomes `R`, and every version row that referenced `L`
now references `R` (conjuncts 2-4) -- but it never returns: right after
the line-309 remap, the local-list refresh at lines 311-313 calls
`model_to_dict` on the `ModelSelect` query object and raises
`AttributeError` (conjunct 1). The remap persists in the store
(autocommitted writes), yet the reload pass aborts. -/
theorem C5_collision_remap_then_crash (L R : String) (u d : Bool)
    (cn : List String) (db : LocalDB) (l : List PMModule) (ps : ProjectStatus)
    (hps : ps.prompt_models = [⟨R, "foo"⟩])
    (hl : "foo" ∈ l.map (·.name))
    (hfind : db.prompt_models.find? (fun r => decide (r.name = "foo"))
        = some ⟨L, "foo", u, d⟩)
    (hone : (db.prompt_models.filter (fun r => decide (r.name = "foo"))).length
        = 1) :
    update_prompt_model_changelog "ADD" ps [R] (some l) cn db
      = (update_prompt_model_uuid db L R, .error attributeErrorMsg)
    ∧ (update_prompt_model_uuid db L R).prompt_models.length
        = db.prompt_models.length
    ∧ ((update_prompt_model_uuid db L R).prompt_models.filter
          (fun r => decide (r.name = "foo"))).length = 1
    ∧ (update_prompt_model_uuid db L R).versions
        = db.versions.map (fun v =>
            if v.prompt_model_uuid = L then { v with prompt_model_uuid := R }
            else v) := by
  refine ⟨?_, ?_, ?_, ?_⟩
  · have hfilter : ps.prompt_models.filter (fun x => decide (x.uuid ∈ [R]))
        = [⟨R, "foo"⟩] := by
      rw [hps]; simp
    unfold update_prompt_model_changelog
    rw [if_pos rfl, hfilter]
    simp only [apply_remote_modules, hl, not_true_eq_false, if_neg, hfind,
      ite_false]
  · simp [update_prompt_model_uuid]
  · rw [← hone]
    unfold update_prompt_model_uuid
    simp only [List.filter_map]
    rw [List.length_map]
    congr 1
    apply List.filter_congr
    intro r _
    by_cases hr : r.uuid = L <;> simp [hr]
  · rfl

/-- Witness for C5: a store with the single module row `(L1, foo)` and
one version referencing `L1`: reconciliation rewrites both to `R1` and
raises. -/
theorem C5_collision_remap_then_crash_witness :
    update_prompt_model_changelog "ADD"
        { emptyPS with prompt_models := [⟨"R1", "foo"⟩] } ["R1"]
        (some [⟨"L1", "foo", true, false⟩]) []
        { emptyDB with prompt_models := [⟨"L1", "foo", true, false⟩],
                       versions := [⟨"v1", "L1", "working"⟩] }
      = ({ emptyDB with prompt_models := [⟨"R1", "foo", true, false⟩],
                        versions := [⟨"v1", "R1", "working"⟩] },
         .error attributeErrorMsg) := by
  have h := C5_collision_remap_then_crash "L1" "R1" true false []
    { emptyDB with prompt_models := [⟨"L1", "foo", true, false⟩],
                   versions := [⟨"v1", "L1", "working"⟩] }
    [⟨"L1", "foo", true, false⟩]
    { emptyPS with prompt_models := [⟨"R1", "foo"⟩] }
    (by decide) (by decide) (by decide) (by decide)
  exact h.1.trans (by decide)

end Fastllm
